import Mathlib

/-!
Shallow embedding of the S2 example resource-manager simulators
(battery storage simulator, PV generation simulators) and proofs of the
behavioural properties stated in the specification.

Floating-point values (`f64`) are modelled as exact rationals `ℚ`; all
arithmetic the simulators perform on them (addition, multiplication,
division by constants, `clamp`/`max`/`min`) is exact on the values in
play, so `ℚ` is a faithful model.  Timestamps (`DateTime<Utc>`) are
modelled as integer Unix seconds `ℤ`; the code only ever uses whole
seconds of elapsed time (`num_seconds`) and whole-hour rounding.
Identifiers (`Id`, generated once per process from UUIDs) are modelled
as natural numbers; randomly generated `message_id`s, which carry no
behavioural content, are omitted from the message model.
-/

namespace S2Battery

/-- The `NumberRange` type of the protocol library: a start and end value. -/
structure NumberRange where
  start_of_range : ℚ
  end_of_range : ℚ
deriving DecidableEq

/-- One element of an FRBC operation mode, as in `OperationModeElement`
(running costs omitted: never read by the simulator). -/
structure OperationModeElement where
  fill_rate : NumberRange
  fill_level_range : NumberRange
  power_ranges : List NumberRange
deriving DecidableEq

/-- An FRBC operation mode: its identifier and elements
(diagnostic label and abnormal-condition flag omitted: never read back). -/
structure OperationMode where
  id : ℕ
  elements : List OperationModeElement
deriving DecidableEq

/-- Constant `CHARGE_EFFICIENCY` from `battery_simulator.rs`. -/
def CHARGE_EFFICIENCY : ℚ := 1

/-- Constant `DISCHARGE_EFFICIENCY` from `battery_simulator.rs`. -/
def DISCHARGE_EFFICIENCY : ℚ := 1

/-- Constant `CAPACITY_WH` from `battery_simulator.rs`. -/
def CAPACITY_WH : ℚ := 20000

/-- Constant `INITIAL_FILL_LEVEL` from `battery_simulator.rs`. -/
def INITIAL_FILL_LEVEL : ℚ := 1/2

/-- The process-stable identifier `OPERATION_MODE_IDLE`. -/
def OPERATION_MODE_IDLE : ℕ := 0

/-- The process-stable identifier `OPERATION_MODE_CHARGE`. -/
def OPERATION_MODE_CHARGE : ℕ := 1

/-- The process-stable identifier `OPERATION_MODE_DISCHARGE`. -/
def OPERATION_MODE_DISCHARGE : ℕ := 2

/-- The `operation_mode_idle` value built in `Simulator::new`. -/
def operation_mode_idle : OperationMode :=
  { id := OPERATION_MODE_IDLE
    elements := [{ fill_rate := { start_of_range := 0, end_of_range := 0 }
                   fill_level_range := { start_of_range := 0, end_of_range := 1 }
                   power_ranges := [{ start_of_range := 0, end_of_range := 0 }] }] }

/-- The charge mode's start-of-range fill rate,
`CHARGE_EFFICIENCY * ((5000.0 / CAPACITY_WH) / 3600.)`. -/
def chargeFillRateStart : ℚ := CHARGE_EFFICIENCY * ((5000 / CAPACITY_WH) / 3600)

/-- The charge mode's end-of-range fill rate,
`0.5 * CHARGE_EFFICIENCY * (5000.0 / CAPACITY_WH / 3600.)`. -/
def chargeFillRateEnd : ℚ := (1/2) * CHARGE_EFFICIENCY * (5000 / CAPACITY_WH / 3600)

/-- The `operation_mode_charge` value built in `Simulator::new`. -/
def operation_mode_charge : OperationMode :=
  { id := OPERATION_MODE_CHARGE
    elements := [{ fill_rate :=
                     { start_of_range := chargeFillRateStart
                       end_of_range := chargeFillRateEnd }
                   fill_level_range := { start_of_range := 0, end_of_range := 1 }
                   power_ranges := [{ start_of_range := 5000, end_of_range := (1/2) * 5000 }] }] }

/-- The `operation_mode_discharge` value built in `Simulator::new`. -/
def operation_mode_discharge : OperationMode :=
  { id := OPERATION_MODE_DISCHARGE
    elements := [{ fill_rate :=
                     { start_of_range := DISCHARGE_EFFICIENCY * ((5000 / CAPACITY_WH) / 3600)
                       end_of_range := (1/2) * DISCHARGE_EFFICIENCY * (5000 / CAPACITY_WH / 3600) }
                   fill_level_range := { start_of_range := 0, end_of_range := 1 }
                   power_ranges := [{ start_of_range := -5000, end_of_range := (1/2) * -5000 }] }] }

/-- The operation-mode catalog (`operation_modes` hash map) built in
`Simulator::new`, as an association list keyed by mode identifier. -/
def operationModesDefault : List (ℕ × OperationMode) :=
  [(OPERATION_MODE_IDLE, operation_mode_idle),
   (OPERATION_MODE_CHARGE, operation_mode_charge),
   (OPERATION_MODE_DISCHARGE, operation_mode_discharge)]

/-- The `Simulator` struct of `battery_simulator.rs`. -/
structure Simulator where
  operation_modes : List (ℕ × OperationMode)
  fill_level : ℚ
  active_operation_mode : ℕ
  operation_mode_factor : ℚ
  simulation_start : ℤ
  last_updated : ℤ
deriving DecidableEq

/-- Key lookup in the operation-mode map (`HashMap::get` / `contains_key` /
indexing); keys in the map are unique so first-match lookup is faithful. -/
def findMode (modes : List (ℕ × OperationMode)) (i : ℕ) : Option OperationMode :=
  (modes.find? (fun p => p.1 == i)).map Prod.snd

/-- `Simulator::new()`, taking the construction instant (`Utc::now()`). -/
def Simulator.new (now : ℤ) : Simulator :=
  { operation_modes := operationModesDefault
    fill_level := INITIAL_FILL_LEVEL
    active_operation_mode := OPERATION_MODE_IDLE
    operation_mode_factor := 1/2
    simulation_start := now
    last_updated := now }

/-- `f64::clamp(0.0, 1.0)` on the (NaN-free) rational model. -/
def clamp01 (x : ℚ) : ℚ := max 0 (min 1 x)

/-- The `frbc::StorageStatus` message payload. -/
structure StorageStatus where
  present_fill_level : ℚ
deriving DecidableEq

/-- `Simulator::update`, taking the current instant (`Utc::now()`).
Returns `none` where the Rust code would panic (active mode missing
from the catalog, or a mode with no elements). -/
def Simulator.update (sim : Simulator) (now : ℤ) : Option (StorageStatus × Simulator) :=
  let delta_time : ℤ := now - sim.last_updated
  match findMode sim.operation_modes sim.active_operation_mode with
  | none => none
  | some mode =>
    match mode.elements.head? with
    | none => none
    | some element =>
      let fill_rates := element.fill_rate
      let fill_rate := fill_rates.start_of_range
        + (fill_rates.end_of_range - fill_rates.start_of_range) * sim.operation_mode_factor
      let new_fill_level := clamp01 (sim.fill_level + fill_rate * (delta_time : ℚ))
      some ({ present_fill_level := new_fill_level },
        { sim with fill_level := new_fill_level, last_updated := now })

/-- The `InstructionStatus` enumeration (the two variants the code uses). -/
inductive InstructionStatus where
  | succeeded
  | rejected
deriving DecidableEq

/-- An inbound `FRBC.Instruction` (fields the simulator reads). -/
structure FrbcInstruction where
  id : ℕ
  operation_mode : ℕ
  operation_mode_factor : ℚ
deriving DecidableEq

/-- Inbound messages as seen by `Simulator::process_message`: an FRBC
instruction, or any other message kind (all treated alike). -/
inductive InMessage where
  | frbcInstruction (instruction : FrbcInstruction)
  | other
deriving DecidableEq

/-- Outbound messages `process_message` can produce (random `message_id`s
omitted). -/
inductive OutMessage where
  | instructionStatusUpdate (instruction_id : ℕ) (status_type : InstructionStatus) (timestamp : ℤ)
  | actuatorStatus (active_operation_mode_id : ℕ) (operation_mode_factor : ℚ)
      (previous_operation_mode_id : ℕ) (transition_timestamp : ℤ)
  | storageStatus (status : StorageStatus)
deriving DecidableEq

/-- `Simulator::process_message`, taking the current instant.  The Rust
code's several `Utc::now()` calls within one invocation are modelled as
the single instant `now`. -/
def Simulator.process_message (sim : Simulator) (now : ℤ) (msg : InMessage) :
    Option (List OutMessage × Simulator) :=
  match sim.update now with
  | none => none
  | some (storage_status, sim1) =>
    let last_operation_mode := sim1.active_operation_mode
    match msg with
    | .frbcInstruction instruction =>
      if (findMode sim1.operation_modes instruction.operation_mode).isSome then
        let sim2 := { sim1 with
          active_operation_mode := instruction.operation_mode,
          operation_mode_factor := instruction.operation_mode_factor }
        some ([OutMessage.instructionStatusUpdate instruction.id InstructionStatus.succeeded now,
               OutMessage.actuatorStatus instruction.operation_mode
                 instruction.operation_mode_factor last_operation_mode now,
               OutMessage.storageStatus storage_status], sim2)
      else
        some ([OutMessage.instructionStatusUpdate instruction.id InstructionStatus.rejected now],
              sim1)
    | .other => some ([], sim1)

/-- A reachable storage state: the freshly constructed simulator after an
accepted instruction switching to charge mode at factor 0. -/
def simChargeFactor0 : Simulator :=
  { Simulator.new 0 with
    active_operation_mode := OPERATION_MODE_CHARGE
    operation_mode_factor := 0 }

/-- A reachable storage state: the freshly constructed simulator after an
accepted instruction switching to charge mode at factor 1. -/
def simChargeFactor1 : Simulator :=
  { Simulator.new 0 with
    active_operation_mode := OPERATION_MODE_CHARGE
    operation_mode_factor := 1 }

end S2Battery

namespace S2Battery

theorem clamp01_nonneg (x : ℚ) : 0 ≤ clamp01 x :=
  le_max_left 0 _

theorem clamp01_le_one (x : ℚ) : clamp01 x ≤ 1 :=
  max_le (by norm_num) (min_le_left 1 x)

theorem clamp01_eq_self {x : ℚ} (h0 : 0 ≤ x) (h1 : x ≤ 1) : clamp01 x = x := by
  unfold clamp01
  rw [min_eq_right h1, max_eq_right h0]

/-- Structural facts about a successful `Simulator::update`: it leaves the
catalog, active mode and factor alone, stamps `last_updated` with the
current instant, and reports the new fill level. -/
theorem update_some_spec (sim : Simulator) (now : ℤ) (st : StorageStatus) (sim' : Simulator)
    (h : sim.update now = some (st, sim')) :
    sim'.operation_modes = sim.operation_modes ∧
    sim'.active_operation_mode = sim.active_operation_mode ∧
    sim'.operation_mode_factor = sim.operation_mode_factor ∧
    sim'.last_updated = now ∧
    st.present_fill_level = sim'.fill_level := by
  unfold Simulator.update at h
  split at h
  · exact absurd h (by simp)
  · split at h
    · exact absurd h (by simp)
    · simp only [Option.some.injEq, Prod.mk.injEq] at h
      obtain ⟨hst, hsim⟩ := h
      subst hst
      subst hsim
      exact ⟨rfl, rfl, rfl, rfl, rfl⟩

/-- The fill level recorded by a successful `Simulator::update` is the
clamped integration result. -/
theorem update_some_fill (sim : Simulator) (now : ℤ) (st : StorageStatus) (sim' : Simulator)
    (h : sim.update now = some (st, sim')) :
    ∃ mode element,
      findMode sim.operation_modes sim.active_operation_mode = some mode ∧
      mode.elements.head? = some element ∧
      sim'.fill_level = clamp01 (sim.fill_level +
        (element.fill_rate.start_of_range +
          (element.fill_rate.end_of_range - element.fill_rate.start_of_range) *
            sim.operation_mode_factor) * ((now - sim.last_updated : ℤ) : ℚ)) := by
  unfold Simulator.update at h
  split at h
  · exact absurd h (by simp)
  · rename_i mode hm
    split at h
    · exact absurd h (by simp)
    · rename_i element he
      simp only [Option.some.injEq, Prod.mk.injEq] at h
      obtain ⟨hst, hsim⟩ := h
      subst hsim
      exact ⟨mode, element, hm, he, rfl⟩

/-- C5: after any successful tick — any starting fill level in [0.0, 1.0],
any active operation mode in the catalog, any operation-mode factor, any
elapsed time (including overshooting ones) — the resulting fill level
lies in [0.0, 1.0]. -/
theorem c5_fill_level_in_unit_interval (sim : Simulator) (now : ℤ)
    (st : StorageStatus) (sim' : Simulator)
    (hf0 : 0 ≤ sim.fill_level) (hf1 : sim.fill_level ≤ 1)
    (h : sim.update now = some (st, sim')) :
    0 ≤ sim'.fill_level ∧ sim'.fill_level ≤ 1 := by
  obtain ⟨mode, element, hm, he, hfill⟩ := update_some_fill sim now st sim' h
  rw [hfill]
  exact ⟨clamp01_nonneg _, clamp01_le_one _⟩

/-- C5 witness: the freshly constructed simulator ticked 60 seconds later
keeps its fill level inside the unit interval. -/
theorem c5_fill_level_in_unit_interval_witness :
    ((0 : ℚ) ≤ (Simulator.new 0).fill_level ∧ (Simulator.new 0).fill_level ≤ 1 ∧
     (Simulator.new 0).update 60
       = some (⟨1/2⟩, { Simulator.new 0 with last_updated := 60 })) ∧
    (0 ≤ ({ Simulator.new 0 with last_updated := 60 } : Simulator).fill_level ∧
     ({ Simulator.new 0 with last_updated := 60 } : Simulator).fill_level ≤ 1) :=
  ⟨⟨by norm_num [Simulator.new, INITIAL_FILL_LEVEL],
    by norm_num [Simulator.new, INITIAL_FILL_LEVEL],
    by
      simp [Simulator.update, Simulator.new, findMode, operationModesDefault,
        operation_mode_idle, OPERATION_MODE_IDLE, INITIAL_FILL_LEVEL, clamp01]
      norm_num⟩,
   c5_fill_level_in_unit_interval (Simulator.new 0) 60 ⟨1/2⟩
     { Simulator.new 0 with last_updated := 60 }
     (by norm_num [Simulator.new, INITIAL_FILL_LEVEL])
     (by norm_num [Simulator.new, INITIAL_FILL_LEVEL])
     (by
       simp [Simulator.update, Simulator.new, findMode, operationModesDefault,
         operation_mode_idle, OPERATION_MODE_IDLE, INITIAL_FILL_LEVEL, clamp01]
       norm_num)⟩

/-- C10: a message that is not an FRBC instruction yields an empty message
list, but the simulator state has still been ticked: `last_updated` is
advanced to the current instant and the fill level has been re-integrated
under the active mode's interpolated rate. -/
theorem c10_other_message_empty_but_ticked (sim : Simulator) (now : ℤ)
    (st : StorageStatus) (sim1 : Simulator)
    (h : sim.update now = some (st, sim1)) :
    sim.process_message now InMessage.other = some ([], sim1) ∧
    sim1.last_updated = now ∧
    ∃ mode element,
      findMode sim.operation_modes sim.active_operation_mode = some mode ∧
      mode.elements.head? = some element ∧
      sim1.fill_level = clamp01 (sim.fill_level +
        (element.fill_rate.start_of_range +
          (element.fill_rate.end_of_range - element.fill_rate.start_of_range) *
            sim.operation_mode_factor) * ((now - sim.last_updated : ℤ) : ℚ)) := by
  refine ⟨?_, (update_some_spec sim now st sim1 h).2.2.2.1, update_some_fill sim now st sim1 h⟩
  unfold Simulator.process_message
  rw [h]

/-- C10 witness: the simulator in charge mode at factor 0 receiving a
non-FRBC message at t = 3600 answers nothing but integrates its fill
level from 1/2 up to 3/4 and advances `last_updated`. -/
theorem c10_other_message_empty_but_ticked_witness :
    (simChargeFactor0.update 3600
       = some (⟨3/4⟩, { simChargeFactor0 with
                         fill_level := 3/4
                         last_updated := 3600 })) ∧
    (simChargeFactor0.process_message 3600 InMessage.other
       = some ([], { simChargeFactor0 with
                      fill_level := 3/4
                      last_updated := 3600 }) ∧
     ({ simChargeFactor0 with
         fill_level := 3/4
         last_updated := 3600 } : Simulator).last_updated = 3600 ∧
     ∃ mode element,
       findMode simChargeFactor0.operation_modes simChargeFactor0.active_operation_mode
         = some mode ∧
       mode.elements.head? = some element ∧
       ({ simChargeFactor0 with
           fill_level := 3/4
           last_updated := 3600 } : Simulator).fill_level
         = clamp01 (simChargeFactor0.fill_level +
             (element.fill_rate.start_of_range +
               (element.fill_rate.end_of_range - element.fill_rate.start_of_range) *
                 simChargeFactor0.operation_mode_factor) *
               ((3600 - simChargeFactor0.last_updated : ℤ) : ℚ))) :=
  ⟨by
     simp [Simulator.update, Simulator.new, simChargeFactor0, findMode, operationModesDefault,
       operation_mode_idle, operation_mode_charge, operation_mode_discharge,
       OPERATION_MODE_IDLE, OPERATION_MODE_CHARGE, OPERATION_MODE_DISCHARGE,
       INITIAL_FILL_LEVEL, clamp01, chargeFillRateStart, chargeFillRateEnd,
       CHARGE_EFFICIENCY, CAPACITY_WH]
     norm_num,
   c10_other_message_empty_but_ticked simChargeFactor0 3600 ⟨3/4⟩
     { simChargeFactor0 with
        fill_level := 3/4
        last_updated := 3600 }
     (by
       simp [Simulator.update, Simulator.new, simChargeFactor0, findMode, operationModesDefault,
         operation_mode_idle, operation_mode_charge, operation_mode_discharge,
         OPERATION_MODE_IDLE, OPERATION_MODE_CHARGE, OPERATION_MODE_DISCHARGE,
         INITIAL_FILL_LEVEL, clamp01, chargeFillRateStart, chargeFillRateEnd,
         CHARGE_EFFICIENCY, CAPACITY_WH]
       norm_num)⟩

/-- C1 counterexample: in charge mode at factor 0, an instruction naming
the unknown mode 77 at t = 3600 does yield exactly one rejection status,
but the tick performed at the start of processing moves the fill level
from 1/2 to 3/4 — the simulator state is not left unchanged. -/
theorem c1_counterexample :
    simChargeFactor0.process_message 3600 (.frbcInstruction ⟨99, 77, 1/2⟩)
      = some ([OutMessage.instructionStatusUpdate 99 InstructionStatus.rejected 3600],
              { simChargeFactor0 with
                 fill_level := 3/4
                 last_updated := 3600 }) ∧
    simChargeFactor0.fill_level = 1/2 ∧ ¬ ((3/4 : ℚ) = 1/2) := by
  refine ⟨?_, ?_, by norm_num⟩
  · simp [Simulator.process_message, Simulator.update, Simulator.new, simChargeFactor0,
      findMode, operationModesDefault, operation_mode_idle, operation_mode_charge,
      operation_mode_discharge, OPERATION_MODE_IDLE, OPERATION_MODE_CHARGE,
      OPERATION_MODE_DISCHARGE, INITIAL_FILL_LEVEL, clamp01, chargeFillRateStart,
      chargeFillRateEnd, CHARGE_EFFICIENCY, CAPACITY_WH]
    norm_num
  · norm_num [simChargeFactor0, Simulator.new, INITIAL_FILL_LEVEL]

/-- C1 (amended): an FRBC instruction naming a mode outside the catalog
yields exactly one rejection status update and leaves the active
operation mode and factor unchanged; the fill level and `last_updated`,
however, are those produced by the tick performed at the start of
message processing (so the fill level is unchanged only when that tick
integrates nothing). -/
theorem c1_unknown_mode_single_rejection (sim : Simulator) (now : ℤ)
    (instruction : FrbcInstruction) (st : StorageStatus) (sim1 : Simulator)
    (h : sim.update now = some (st, sim1))
    (hmode : findMode sim1.operation_modes instruction.operation_mode = none) :
    sim.process_message now (.frbcInstruction instruction)
      = some ([OutMessage.instructionStatusUpdate instruction.id InstructionStatus.rejected now],
              sim1) ∧
    sim1.active_operation_mode = sim.active_operation_mode ∧
    sim1.operation_mode_factor = sim.operation_mode_factor ∧
    sim1.last_updated = now := by
  obtain ⟨_, ha, hf, hl, _⟩ := update_some_spec sim now st sim1 h
  refine ⟨?_, ha, hf, hl⟩
  unfold Simulator.process_message
  rw [h]
  simp [hmode]

/-- C1 witness: the theorem applied to the fresh simulator and an
instruction naming the unknown mode 42. -/
theorem c1_unknown_mode_single_rejection_witness :
    ((Simulator.new 0).update 0 = some (⟨1/2⟩, Simulator.new 0) ∧
     findMode (Simulator.new 0).operation_modes 42 = none) ∧
    ((Simulator.new 0).process_message 0 (.frbcInstruction ⟨7, 42, 1/4⟩)
       = some ([OutMessage.instructionStatusUpdate 7 InstructionStatus.rejected 0],
               Simulator.new 0) ∧
     (Simulator.new 0).active_operation_mode = (Simulator.new 0).active_operation_mode ∧
     (Simulator.new 0).operation_mode_factor = (Simulator.new 0).operation_mode_factor ∧
     (Simulator.new 0).last_updated = 0) :=
  ⟨⟨by
      simp [Simulator.update, Simulator.new, findMode, operationModesDefault,
        operation_mode_idle, OPERATION_MODE_IDLE, INITIAL_FILL_LEVEL, clamp01]
      norm_num,
    by
      simp [Simulator.new, findMode, operationModesDefault, operation_mode_idle,
        operation_mode_charge, operation_mode_discharge, OPERATION_MODE_IDLE,
        OPERATION_MODE_CHARGE, OPERATION_MODE_DISCHARGE]⟩,
   c1_unknown_mode_single_rejection (Simulator.new 0) 0 ⟨7, 42, 1/4⟩ ⟨1/2⟩ (Simulator.new 0)
     (by
       simp [Simulator.update, Simulator.new, findMode, operationModesDefault,
         operation_mode_idle, OPERATION_MODE_IDLE, INITIAL_FILL_LEVEL, clamp01]
       norm_num)
     (by
       simp [Simulator.new, findMode, operationModesDefault, operation_mode_idle,
         operation_mode_charge, operation_mode_discharge, OPERATION_MODE_IDLE,
         OPERATION_MODE_CHARGE, OPERATION_MODE_DISCHARGE])⟩

/-- C4: an FRBC instruction naming a cataloged mode yields exactly three
messages, in order: the instruction-accepted status, the actuator status
carrying the previous mode, the new mode and the new factor, and the
storage status produced by the tick performed at the start of
processing; the simulator switches to the instructed mode and factor. -/
theorem c4_accepted_three_messages (sim : Simulator) (now : ℤ)
    (instruction : FrbcInstruction) (st : StorageStatus) (sim1 : Simulator)
    (h : sim.update now = some (st, sim1))
    (hmode : (findMode sim1.operation_modes instruction.operation_mode).isSome = true) :
    sim.process_message now (.frbcInstruction instruction)
      = some ([OutMessage.instructionStatusUpdate instruction.id InstructionStatus.succeeded now,
               OutMessage.actuatorStatus instruction.operation_mode
                 instruction.operation_mode_factor sim.active_operation_mode now,
               OutMessage.storageStatus st],
              { sim1 with
                 active_operation_mode := instruction.operation_mode
                 operation_mode_factor := instruction.operation_mode_factor }) := by
  obtain ⟨_, ha, _, _, _⟩ := update_some_spec sim now st sim1 h
  unfold Simulator.process_message
  rw [h]
  simp [hmode, ha]

/-- C4 witness: the fresh simulator accepting a charge instruction with
factor 3/4 at t = 60. -/
theorem c4_accepted_three_messages_witness :
    ((Simulator.new 0).update 60
       = some (⟨1/2⟩, { Simulator.new 0 with last_updated := 60 }) ∧
     (findMode ({ Simulator.new 0 with last_updated := 60 } : Simulator).operation_modes
        OPERATION_MODE_CHARGE).isSome = true) ∧
    (Simulator.new 0).process_message 60 (.frbcInstruction ⟨5, OPERATION_MODE_CHARGE, 3/4⟩)
      = some ([OutMessage.instructionStatusUpdate 5 InstructionStatus.succeeded 60,
               OutMessage.actuatorStatus OPERATION_MODE_CHARGE (3/4)
                 (Simulator.new 0).active_operation_mode 60,
               OutMessage.storageStatus ⟨1/2⟩],
              { { Simulator.new 0 with last_updated := 60 } with
                 active_operation_mode := OPERATION_MODE_CHARGE
                 operation_mode_factor := 3/4 }) :=
  ⟨⟨by
      simp [Simulator.update, Simulator.new, findMode, operationModesDefault,
        operation_mode_idle, OPERATION_MODE_IDLE, INITIAL_FILL_LEVEL, clamp01]
      norm_num,
    by
      simp [Simulator.new, findMode, operationModesDefault, OPERATION_MODE_IDLE,
        OPERATION_MODE_CHARGE, OPERATION_MODE_DISCHARGE]⟩,
   c4_accepted_three_messages (Simulator.new 0) 60 ⟨5, OPERATION_MODE_CHARGE, 3/4⟩ ⟨1/2⟩
     { Simulator.new 0 with last_updated := 60 }
     (by
       simp [Simulator.update, Simulator.new, findMode, operationModesDefault,
         operation_mode_idle, OPERATION_MODE_IDLE, INITIAL_FILL_LEVEL, clamp01]
       norm_num)
     (by
       simp [Simulator.new, findMode, operationModesDefault, OPERATION_MODE_IDLE,
         OPERATION_MODE_CHARGE, OPERATION_MODE_DISCHARGE])⟩

/-- C2 counterexample: in charge mode at factor 1.0, a 3600-second tick
moves the fill level from 1/2 to 5/8 — a delta of 1/8, which is the
end-of-range rate times 3600; the claimed start-of-range delta would
have been 1/4. -/
theorem c2_counterexample :
    simChargeFactor1.update 3600
      = some (⟨5/8⟩, { simChargeFactor1 with
                        fill_level := 5/8
                        last_updated := 3600 }) ∧
    simChargeFactor1.fill_level = 1/2 ∧
    ¬ ((5/8 : ℚ) - 1/2 = chargeFillRateStart * 3600) ∧
    ((5/8 : ℚ) - 1/2 = chargeFillRateEnd * 3600) := by
  refine ⟨?_, ?_, ?_, ?_⟩
  · simp [Simulator.update, Simulator.new, simChargeFactor1, findMode, operationModesDefault,
      operation_mode_idle, operation_mode_charge, operation_mode_discharge,
      OPERATION_MODE_IDLE, OPERATION_MODE_CHARGE, OPERATION_MODE_DISCHARGE,
      INITIAL_FILL_LEVEL, clamp01, chargeFillRateStart, chargeFillRateEnd,
      CHARGE_EFFICIENCY, CAPACITY_WH]
    norm_num
  · norm_num [simChargeFactor1, Simulator.new, INITIAL_FILL_LEVEL]
  · norm_num [chargeFillRateStart, CHARGE_EFFICIENCY, CAPACITY_WH]
  · norm_num [chargeFillRateEnd, CHARGE_EFFICIENCY, CAPACITY_WH]

/-- C2 (amended): with active mode = charge and operation-mode factor =
1.0, a tick after a fixed elapsed interval changes the fill level by
exactly `end_of_range_rate * elapsed_seconds` (provided the result needs
no clamping): under the interpolation formula
`rate = lo + (hi - lo) * factor`, factor 1.0 selects the charge mode's
end-of-range fill rate, not the start-of-range one. -/
theorem c2_charge_factor_one_uses_end_rate (sim : Simulator) (now : ℤ)
    (hmodes : sim.operation_modes = operationModesDefault)
    (hactive : sim.active_operation_mode = OPERATION_MODE_CHARGE)
    (hfactor : sim.operation_mode_factor = 1)
    (h0 : 0 ≤ sim.fill_level + chargeFillRateEnd * ((now - sim.last_updated : ℤ) : ℚ))
    (h1 : sim.fill_level + chargeFillRateEnd * ((now - sim.last_updated : ℤ) : ℚ) ≤ 1) :
    sim.update now
      = some (⟨sim.fill_level + chargeFillRateEnd * ((now - sim.last_updated : ℤ) : ℚ)⟩,
              { sim with
                fill_level :=
                  sim.fill_level + chargeFillRateEnd * ((now - sim.last_updated : ℤ) : ℚ)
                last_updated := now }) := by
  have hfind : findMode sim.operation_modes sim.active_operation_mode
      = some operation_mode_charge := by
    rw [hmodes, hactive]
    simp [findMode, operationModesDefault, OPERATION_MODE_IDLE, OPERATION_MODE_CHARGE]
  have hrate : chargeFillRateStart + (chargeFillRateEnd - chargeFillRateStart) *
      sim.operation_mode_factor = chargeFillRateEnd := by
    rw [hfactor]; ring
  simp only [Simulator.update, hfind, operation_mode_charge, List.head?, hrate,
    clamp01_eq_self h0 h1]

/-- C2 witness: the simulator in charge mode at factor 1 ticked at
t = 3600 lands exactly on fill level 1/2 + end-of-range-rate · 3600. -/
theorem c2_charge_factor_one_uses_end_rate_witness :
    (simChargeFactor1.operation_modes = operationModesDefault ∧
     simChargeFactor1.active_operation_mode = OPERATION_MODE_CHARGE ∧
     simChargeFactor1.operation_mode_factor = 1 ∧
     (0 : ℚ) ≤ simChargeFactor1.fill_level +
       chargeFillRateEnd * ((3600 - simChargeFactor1.last_updated : ℤ) : ℚ) ∧
     simChargeFactor1.fill_level +
       chargeFillRateEnd * ((3600 - simChargeFactor1.last_updated : ℤ) : ℚ) ≤ 1) ∧
    simChargeFactor1.update 3600
      = some (⟨simChargeFactor1.fill_level +
                chargeFillRateEnd * ((3600 - simChargeFactor1.last_updated : ℤ) : ℚ)⟩,
              { simChargeFactor1 with
                fill_level := simChargeFactor1.fill_level +
                  chargeFillRateEnd * ((3600 - simChargeFactor1.last_updated : ℤ) : ℚ)
                last_updated := 3600 }) :=
  ⟨⟨rfl, rfl, rfl,
    by norm_num [simChargeFactor1, Simulator.new, INITIAL_FILL_LEVEL, chargeFillRateEnd,
      CHARGE_EFFICIENCY, CAPACITY_WH],
    by norm_num [simChargeFactor1, Simulator.new, INITIAL_FILL_LEVEL, chargeFillRateEnd,
      CHARGE_EFFICIENCY, CAPACITY_WH]⟩,
   c2_charge_factor_one_uses_end_rate simChargeFactor1 3600 rfl rfl rfl
     (by norm_num [simChargeFactor1, Simulator.new, INITIAL_FILL_LEVEL, chargeFillRateEnd,
       CHARGE_EFFICIENCY, CAPACITY_WH])
     (by norm_num [simChargeFactor1, Simulator.new, INITIAL_FILL_LEVEL, chargeFillRateEnd,
       CHARGE_EFFICIENCY, CAPACITY_WH])⟩

end S2Battery

namespace S2Pv

/-- Constant `POWER_IN_W` (peak rated power in watts), identical in
`pv_simulator_pebc.rs` and `pv_simulator_simple.rs`. -/
def POWER_IN_W : ℚ := 2000

/-- Lookup in the generation profile (`HashMap<DateTime<Utc>, f64>::get`),
modelled as first-match lookup in an association list keyed by timestamp;
profile keys are unique so this is faithful. -/
def lookupTable (table : List (ℤ × ℚ)) (t : ℤ) : Option ℚ :=
  (table.find? (fun row => row.1 == t)).map Prod.snd

/-- Chrono's `duration_round(TimeDelta::hours(1))` on a timestamp in
seconds: round to the nearest whole hour, ties rounding up.  Chrono
computes `delta_down = stamp % span` and rounds up when
`span - delta_down <= delta_down`; on seconds this is floor-division of
`t + 1800` by `3600`, for negative `t` as well. -/
def duration_round_hour (t : ℤ) : ℤ := 3600 * ((t + 1800).fdiv 3600)

/-- The `PvConstraint` struct of `pv_simulator_pebc.rs` (bounds already
normalized by `POWER_IN_W` when stored). -/
structure PvConstraint where
  lower_limit : ℚ
  upper_limit : ℚ
  start_time : ℤ
  end_time : ℤ
deriving DecidableEq

/-- The `PvSimulator` struct of `pv_simulator_pebc.rs`. -/
structure PvSimulator where
  profile : List (ℤ × ℚ)
  time_delta : ℤ
  constraints : List PvConstraint
deriving DecidableEq

/-- The loop body condition of `PvSimulator::get_current_constraints`:
the constraint's interval contains `now` (both endpoints inclusive in
the code: `start_time <= now && end_time >= now`). -/
def constraintActive (c : PvConstraint) (now : ℤ) : Bool :=
  decide (c.start_time ≤ now) && decide (c.end_time ≥ now)

/-- `PvSimulator::get_current_constraints`, taking the current instant
(`Utc::now()`): first constraint in insertion order whose interval
contains `now` wins; otherwise the unconstrained bounds `(-1, 1)`. -/
def PvSimulator.get_current_constraints (sim : PvSimulator) (now : ℤ) : ℚ × ℚ :=
  match sim.constraints.find? (fun c => constraintActive c now) with
  | some c => (c.lower_limit, c.upper_limit)
  | none => (-1, 1)

/-- `PvSimulator::get_current_power` (PEBC variant), taking the current
instant.  Returns `none` where the Rust code would panic on a profile
lookup miss. -/
def PvSimulator.get_current_power (sim : PvSimulator) (now : ℤ) : Option ℚ :=
  let simulated_current_time := now + sim.time_delta
  let rounded_time := duration_round_hour simulated_current_time
  let bounds := sim.get_current_constraints now
  (lookupTable sim.profile rounded_time).map
    (fun v => min (max v bounds.1) bounds.2 * POWER_IN_W)

/-- `PvSimulator::get_24h_forecast` (PEBC variant), taking the current
instant.  Returns `none` where the Rust code would panic on any of the
24 profile lookup misses. -/
def PvSimulator.get_24h_forecast (sim : PvSimulator) (now : ℤ) : Option (List ℚ) :=
  let simulated_current_time := now + sim.time_delta
  let rounded_time := duration_round_hour simulated_current_time
  (List.range 24).mapM (fun (offset : ℕ) =>
    (lookupTable sim.profile (rounded_time + 3600 * ((offset : ℤ) + 1))).map
      (fun v => v * POWER_IN_W))

/-- `PvSimulator::add_constraint`, taking the current instant: push the
new (normalized) constraint, then retain only constraints whose
`end_time` is still in the future. -/
def PvSimulator.add_constraint (sim : PvSimulator) (now : ℤ)
    (start_time end_time : ℤ) (lower_limit upper_limit : ℚ) : PvSimulator :=
  let pushed := sim.constraints ++
    [{ lower_limit := lower_limit / POWER_IN_W
       upper_limit := upper_limit / POWER_IN_W
       start_time := start_time
       end_time := end_time }]
  { sim with constraints := pushed.filter (fun c => decide (now < c.end_time)) }

/-- The `PvSimulator` struct of `pv_simulator_simple.rs` (no constraint
machinery). -/
structure SimplePvSimulator where
  profile : List (ℤ × ℚ)
  time_delta : ℤ
deriving DecidableEq

/-- `PvSimulator::get_current_power` of the simple (not-controllable)
variant: profile value at the rounded simulated time scaled by
`POWER_IN_W`, unclamped. -/
def SimplePvSimulator.get_current_power (sim : SimplePvSimulator) (now : ℤ) : Option ℚ :=
  let simulated_current_time := now + sim.time_delta
  let rounded_time := duration_round_hour simulated_current_time
  (lookupTable sim.profile rounded_time).map (fun v => v * POWER_IN_W)

/-- `PvSimulator::get_24h_forecast` of the simple variant. -/
def SimplePvSimulator.get_24h_forecast (sim : SimplePvSimulator) (now : ℤ) : Option (List ℚ) :=
  let simulated_current_time := now + sim.time_delta
  let rounded_time := duration_round_hour simulated_current_time
  (List.range 24).mapM (fun (offset : ℕ) =>
    (lookupTable sim.profile (rounded_time + 3600 * ((offset : ℤ) + 1))).map
      (fun v => v * POWER_IN_W))

/-- The power value the simple simulator's measurement timer puts on the
wire: `-simulator.get_current_power()` (production negative in S2). -/
def SimplePvSimulator.reported_measurement (sim : SimplePvSimulator) (now : ℤ) : Option ℚ :=
  (sim.get_current_power now).map (fun p => -p)

/-- The forecast values the simple simulator's forecast timer puts on
the wire: each `forecast_value` negated. -/
def SimplePvSimulator.reported_forecast (sim : SimplePvSimulator) (now : ℤ) : Option (List ℚ) :=
  (sim.get_24h_forecast now).map (fun l => l.map (fun p => -p))

/-- The power value the PEBC simulator's measurement timer puts on the
wire: `simulator.get_current_power()`, un-negated. -/
def PvSimulator.reported_measurement (sim : PvSimulator) (now : ℤ) : Option ℚ :=
  sim.get_current_power now

/-- The forecast values the PEBC simulator's forecast timer puts on the
wire: each `forecast_value`, un-negated. -/
def PvSimulator.reported_forecast (sim : PvSimulator) (now : ℤ) : Option (List ℚ) :=
  sim.get_24h_forecast now

/-- A constraint registered first: bounds 1/4 to 1/2 over [0, 100]. -/
def constraintA : PvConstraint :=
  { lower_limit := 1/4, upper_limit := 1/2, start_time := 0, end_time := 100 }

/-- A constraint registered second, overlapping the first: bounds -1/2 to
3/4 over [50, 200]. -/
def constraintB : PvConstraint :=
  { lower_limit := -1/2, upper_limit := 3/4, start_time := 50, end_time := 200 }

/-- A constrained simulator holding the two overlapping constraints in
insertion order A, B. -/
def simOverlap : PvSimulator := { profile := [], time_delta := 0, constraints := [constraintA, constraintB] }

/-- A generation profile mapping hour-aligned timestamp `3600·h` to the
normalized value `h`, for hours 0 through 25. -/
def profileHours : List (ℤ × ℚ) :=
  [(0, 0), (3600, 1), (7200, 2), (10800, 3), (14400, 4), (18000, 5), (21600, 6),
   (25200, 7), (28800, 8), (32400, 9), (36000, 10), (39600, 11), (43200, 12),
   (46800, 13), (50400, 14), (54000, 15), (57600, 16), (61200, 17), (64800, 18),
   (68400, 19), (72000, 20), (75600, 21), (79200, 22), (82800, 23), (86400, 24),
   (90000, 25)]

/-- A constrained simulator over `profileHours` with a zero time delta and
no constraints. -/
def simProfileHours : PvSimulator :=
  { profile := profileHours, time_delta := 0, constraints := [] }

/-- A generation profile that is identically zero on hours 0 through 24. -/
def profileZero : List (ℤ × ℚ) :=
  [(0, 0), (3600, 0), (7200, 0), (10800, 0), (14400, 0), (18000, 0), (21600, 0),
   (25200, 0), (28800, 0), (32400, 0), (36000, 0), (39600, 0), (43200, 0),
   (46800, 0), (50400, 0), (54000, 0), (57600, 0), (61200, 0), (64800, 0),
   (68400, 0), (72000, 0), (75600, 0), (79200, 0), (82800, 0), (86400, 0)]

/-- A constrained simulator over `profileZero` with a zero time delta and
no constraints. -/
def simProfileZero : PvSimulator :=
  { profile := profileZero, time_delta := 0, constraints := [] }

/-- An unconstrained (simple) simulator over `profileZero` with a zero
time delta. -/
def simpleProfileZero : SimplePvSimulator :=
  { profile := profileZero, time_delta := 0 }

/-- The 24-hour forecast over `profileZero`: 24 zero watt values. -/
def forecastZeros : List ℚ :=
  [0, 0, 0, 0, 0, 0, 0, 0, 0, 0, 0, 0, 0, 0, 0, 0, 0, 0, 0, 0, 0, 0, 0, 0]

end S2Pv

namespace S2Pv

/-- `List.find?` returns the element at the first index satisfying the
predicate when all earlier indices fail it. -/
theorem find?_first_true {α : Type} (p : α → Bool) (l : List α) :
    ∀ (i : ℕ) (hi : i < l.length),
      p (l.get ⟨i, hi⟩) = true →
      (∀ j (hj : j < i), p (l.get ⟨j, Nat.lt_trans hj hi⟩) = false) →
      l.find? p = some (l.get ⟨i, hi⟩) := by
  induction l with
  | nil => intro i hi _ _; exact absurd hi (by simp)
  | cons a l ih =>
    intro i hi hp hb
    cases i with
    | zero =>
      simp only [List.get] at hp
      simp [List.find?_cons_of_pos, hp]
    | succ i =>
      have ha : p a = false := by
        have h0 := hb 0 (Nat.succ_pos i)
        simpa using h0
      rw [List.find?_cons_of_neg _ (by simp [ha])]
      have hi' : i < l.length := Nat.lt_of_succ_lt_succ hi
      have hp' : p (l.get ⟨i, hi'⟩) = true := by simpa using hp
      have hb' : ∀ j (hj : j < i), p (l.get ⟨j, Nat.lt_trans hj hi'⟩) = false := by
        intro j hj
        have hjj := hb (j+1) (Nat.succ_lt_succ hj)
        simpa using hjj
      simpa using ih i hi' hp' hb'

/-- A successful `mapM` over `Option` produces one output per input, with
the function succeeding pointwise. -/
theorem mapM_option_eq_some {α β : Type} (f : α → Option β) :
    ∀ (l : List α) (ys : List β), l.mapM f = some ys →
      ys.length = l.length ∧
      ∀ i (hi : i < l.length), ∃ hy : i < ys.length,
        f (l.get ⟨i, hi⟩) = some (ys.get ⟨i, hy⟩) := by
  intro l
  induction l with
  | nil =>
    intro ys h
    simp only [List.mapM_nil, pure, Option.some.injEq] at h
    subst h
    exact ⟨rfl, fun i hi => absurd hi (by simp)⟩
  | cons a l ih =>
    intro ys h
    rw [List.mapM_cons] at h
    cases hfa : f a with
    | none => rw [hfa] at h; simp at h
    | some b =>
      rw [hfa] at h
      cases hml : l.mapM f with
      | none => rw [hml] at h; simp at h
      | some bs =>
        rw [hml] at h
        simp only [bind, Option.bind, pure, Option.some.injEq] at h
        subst h
        obtain ⟨hlen, hidx⟩ := ih bs hml
        refine ⟨by simp [hlen], ?_⟩
        intro i hi
        cases i with
        | zero => exact ⟨by simp, by simpa using hfa⟩
        | succ i =>
          obtain ⟨hy, hf⟩ := hidx i (Nat.lt_of_succ_lt_succ hi)
          exact ⟨Nat.succ_lt_succ hy, by simpa using hf⟩

/-- The 24 hourly offsets, written out. -/
theorem range24 : List.range 24
    = [0, 1, 2, 3, 4, 5, 6, 7, 8, 9, 10, 11, 12,
       13, 14, 15, 16, 17, 18, 19, 20, 21, 22, 23] := by decide

/-- C3 counterexample: a single constraint over [0, 10] with bounds
(0, 0) still governs at time 10, although 10 lies outside the half-open
interval [0, 10): the lookup would have to answer the unconstrained
bounds (-1, 1) under the claim, but answers (0, 0) — the code treats the
interval as closed at both ends. -/
theorem c3_counterexample :
    (PvSimulator.mk [] 0 [⟨0, 0, 0, 10⟩]).get_current_constraints 10 = (0, 0) ∧
    ¬ ((10 : ℤ) < 10) ∧
    ¬ (((0 : ℚ), (0 : ℚ)) = ((-1 : ℚ), (1 : ℚ))) := by
  refine ⟨?_, by norm_num, fun h => by have h2 := congrArg Prod.snd h; norm_num at h2⟩
  simp [PvSimulator.get_current_constraints, constraintActive]

/-- C3 (amended): the constraint lookup returns the bounds of the first
constraint in insertion order whose closed interval [start, end] — both
endpoints inclusive, not the half-open [start, end) — contains the query
instant, and the unconstrained bounds (-1, 1) when no constraint's
interval contains it; for two overlapping applicable constraints the
earlier-inserted one governs. -/
theorem c3_first_match_closed_interval (sim : PvSimulator) (now : ℤ) :
    ((∀ c ∈ sim.constraints, constraintActive c now = false) →
      sim.get_current_constraints now = (-1, 1)) ∧
    (∀ i (hi : i < sim.constraints.length),
      constraintActive (sim.constraints.get ⟨i, hi⟩) now = true →
      (∀ j (hj : j < i),
        constraintActive (sim.constraints.get ⟨j, Nat.lt_trans hj hi⟩) now = false) →
      sim.get_current_constraints now
        = ((sim.constraints.get ⟨i, hi⟩).lower_limit,
           (sim.constraints.get ⟨i, hi⟩).upper_limit)) := by
  constructor
  · intro hall
    unfold PvSimulator.get_current_constraints
    rw [List.find?_eq_none.mpr (by intro x hx; simp [hall x hx])]
  · intro i hi hp hb
    unfold PvSimulator.get_current_constraints
    rw [find?_first_true _ _ i hi hp hb]

/-- C3 witness: with overlapping constraints A then B, both applicable at
t = 60, A's bounds (1/4, 1/2) govern. -/
theorem c3_first_match_closed_interval_witness :
    (constraintActive (simOverlap.constraints.get ⟨0, by norm_num [simOverlap]⟩) 60 = true ∧
     constraintActive constraintB 60 = true) ∧
    simOverlap.get_current_constraints 60 = (1/4, 1/2) :=
  ⟨⟨by decide, by decide⟩,
   (c3_first_match_closed_interval simOverlap 60).2 0 (by norm_num [simOverlap]) (by decide)
     (fun j hj => absurd hj (Nat.not_lt_zero j))⟩

/-- C8: immediately after any insertion, no constraint whose end time has
passed remains in the list. -/
theorem c8_no_expired_constraint_after_insertion (sim : PvSimulator) (now st et : ℤ)
    (lo hi : ℚ) (c : PvConstraint)
    (hc : c ∈ (sim.add_constraint now st et lo hi).constraints) :
    ¬ (c.end_time < now) := by
  unfold PvSimulator.add_constraint at hc
  simp only [List.mem_filter] at hc
  have h2 := hc.2
  simp only [decide_eq_true_eq] at h2
  omega

/-- C8 witness: inserting a constraint over [0, 10] at t = 0 leaves only
constraints whose end time has not passed. -/
theorem c8_no_expired_constraint_after_insertion_witness :
    ((⟨0 / POWER_IN_W, 0 / POWER_IN_W, 0, 10⟩ : PvConstraint)
        ∈ ((⟨[], 0, []⟩ : PvSimulator).add_constraint 0 0 10 0 0).constraints) ∧
    ¬ ((⟨0 / POWER_IN_W, 0 / POWER_IN_W, 0, 10⟩ : PvConstraint).end_time < (0 : ℤ)) :=
  ⟨by simp [PvSimulator.add_constraint],
   c8_no_expired_constraint_after_insertion ⟨[], 0, []⟩ 0 0 10 0 0
     ⟨0 / POWER_IN_W, 0 / POWER_IN_W, 0, 10⟩
     (by simp [PvSimulator.add_constraint])⟩

/-- C7: whenever the profile lookup succeeds and the currently-applicable
constraint's bounds are ordered, the current power lies within
[lower, upper] scaled by the peak rated power. -/
theorem c7_current_power_within_constraint_bounds (sim : PvSimulator) (now : ℤ) (v : ℚ)
    (hl : lookupTable sim.profile (duration_round_hour (now + sim.time_delta)) = some v)
    (hb : (sim.get_current_constraints now).1 ≤ (sim.get_current_constraints now).2) :
    ∃ p, sim.get_current_power now = some p ∧
      (sim.get_current_constraints now).1 * POWER_IN_W ≤ p ∧
      p ≤ (sim.get_current_constraints now).2 * POWER_IN_W := by
  refine ⟨min (max v (sim.get_current_constraints now).1) (sim.get_current_constraints now).2
      * POWER_IN_W, ?_, ?_, ?_⟩
  · simp only [PvSimulator.get_current_power, hl, Option.map_some']
  · have h1 : (sim.get_current_constraints now).1
        ≤ min (max v (sim.get_current_constraints now).1) (sim.get_current_constraints now).2 :=
      le_min (le_max_right _ _) hb
    exact mul_le_mul_of_nonneg_right h1 (by norm_num [POWER_IN_W])
  · exact mul_le_mul_of_nonneg_right (min_le_right _ _) (by norm_num [POWER_IN_W])

/-- C7 witness: an unconstrained simulator over the one-point profile
value 1/2 at hour 0 yields a power inside (-1, 1) scaled by 2000. -/
theorem c7_current_power_within_constraint_bounds_witness :
    (lookupTable (PvSimulator.mk [((0 : ℤ), (1/2 : ℚ))] 0 []).profile
        (duration_round_hour (0 + (PvSimulator.mk [((0 : ℤ), (1/2 : ℚ))] 0 []).time_delta))
      = some (1/2) ∧
     ((PvSimulator.mk [((0 : ℤ), (1/2 : ℚ))] 0 []).get_current_constraints 0).1
       ≤ ((PvSimulator.mk [((0 : ℤ), (1/2 : ℚ))] 0 []).get_current_constraints 0).2) ∧
    (∃ p, (PvSimulator.mk [((0 : ℤ), (1/2 : ℚ))] 0 []).get_current_power 0 = some p ∧
      ((PvSimulator.mk [((0 : ℤ), (1/2 : ℚ))] 0 []).get_current_constraints 0).1 * POWER_IN_W
        ≤ p ∧
      p ≤ ((PvSimulator.mk [((0 : ℤ), (1/2 : ℚ))] 0 []).get_current_constraints 0).2
        * POWER_IN_W) :=
  ⟨⟨by simp [lookupTable, duration_round_hour],
    by norm_num [PvSimulator.get_current_constraints]⟩,
   c7_current_power_within_constraint_bounds (PvSimulator.mk [((0 : ℤ), (1/2 : ℚ))] 0 []) 0 (1/2)
     (by simp [lookupTable, duration_round_hour])
     (by norm_num [PvSimulator.get_current_constraints])⟩

/-- C9: at the reporting boundary, the simple (unconstrained) simulator
negates the profile value scaled by peak rated power for both
measurements and forecasts, while the PEBC (constrained) simulator
reports the same underlying values as positive watts. -/
theorem c9_sign_convention_at_reporting_boundary (profile : List (ℤ × ℚ))
    (delta now : ℤ) (v : ℚ) (l : List ℚ)
    (hl : lookupTable profile (duration_round_hour (now + delta)) = some v)
    (h0 : 0 ≤ v) (h1 : v ≤ 1)
    (hfl : (SimplePvSimulator.mk profile delta).get_24h_forecast now = some l) :
    (SimplePvSimulator.mk profile delta).reported_measurement now = some (-(v * POWER_IN_W)) ∧
    (PvSimulator.mk profile delta []).reported_measurement now = some (v * POWER_IN_W) ∧
    (SimplePvSimulator.mk profile delta).reported_forecast now = some (l.map (fun p => -p)) ∧
    (PvSimulator.mk profile delta []).reported_forecast now = some l := by
  refine ⟨?_, ?_, ?_, hfl⟩
  · simp [SimplePvSimulator.reported_measurement, SimplePvSimulator.get_current_power, hl]
  · have hmax : max v (-1 : ℚ) = v := max_eq_left (le_trans (by norm_num) h0)
    have hmin : min v (1 : ℚ) = v := min_eq_left h1
    simp [PvSimulator.reported_measurement, PvSimulator.get_current_power,
      PvSimulator.get_current_constraints, hl, hmax, hmin]
  · simp [SimplePvSimulator.reported_forecast, hfl]

/-- C9 witness: over the all-zero profile with zero time delta, at t = 0,
the simple simulator reports -(0·2000) while the PEBC simulator reports
0·2000, and the simple forecast is the elementwise negation. -/
theorem c9_sign_convention_at_reporting_boundary_witness :
    (lookupTable profileZero (duration_round_hour (0 + 0)) = some 0 ∧
     (0 : ℚ) ≤ 0 ∧ (0 : ℚ) ≤ 1 ∧
     (SimplePvSimulator.mk profileZero 0).get_24h_forecast 0 = some forecastZeros) ∧
    ((SimplePvSimulator.mk profileZero 0).reported_measurement 0
       = some (-((0 : ℚ) * POWER_IN_W)) ∧
     (PvSimulator.mk profileZero 0 []).reported_measurement 0 = some ((0 : ℚ) * POWER_IN_W) ∧
     (SimplePvSimulator.mk profileZero 0).reported_forecast 0
       = some (forecastZeros.map (fun p => -p)) ∧
     (PvSimulator.mk profileZero 0 []).reported_forecast 0 = some forecastZeros) :=
  ⟨⟨by simp [lookupTable, profileZero, duration_round_hour], by norm_num, by norm_num,
    by
      rw [SimplePvSimulator.get_24h_forecast, range24]
      simp only [List.mapM_cons, List.mapM_nil]
      simp [profileZero, forecastZeros, lookupTable, duration_round_hour, POWER_IN_W]⟩,
   c9_sign_convention_at_reporting_boundary profileZero 0 0 0 forecastZeros
     (by simp [lookupTable, profileZero, duration_round_hour]) (by norm_num) (by norm_num)
     (by
       rw [SimplePvSimulator.get_24h_forecast, range24]
       simp only [List.mapM_cons, List.mapM_nil]
       simp [profileZero, forecastZeros, lookupTable, duration_round_hour, POWER_IN_W])⟩

/-- C6 counterexample: with a zero time delta and simulated time 1800
(half past hour 0), the next full simulated hour is 3600, whose profile
value is 1; the claim demands a first forecast value of 1 · 2000 = 2000,
but the forecast starts at hour 7200 (the rounded hour 3600 plus one)
and its first value is 4000. -/
theorem c6_counterexample :
    simProfileHours.get_24h_forecast 1800
      = some [4000, 6000, 8000, 10000, 12000, 14000, 16000, 18000, 20000, 22000,
              24000, 26000, 28000, 30000, 32000, 34000, 36000, 38000, 40000, 42000,
              44000, 46000, 48000, 50000] ∧
    lookupTable simProfileHours.profile 3600 = some 1 ∧
    (1800 : ℤ) < 3600 ∧
    ¬ ((4000 : ℚ) = 1 * POWER_IN_W) := by
  refine ⟨?_, by simp [lookupTable, simProfileHours, profileHours], by norm_num,
    by norm_num [POWER_IN_W]⟩
  rw [PvSimulator.get_24h_forecast, range24]
  simp only [List.mapM_cons, List.mapM_nil]
  simp [simProfileHours, profileHours, lookupTable, duration_round_hour, POWER_IN_W]
  norm_num

/-- C6 (amended): whenever the 24 profile lookups succeed, the forecast
returns exactly 24 values, one per consecutive simulated hour in
increasing order starting one hour after the current simulated time
rounded to the nearest full hour (ties up) — the next full simulated
hour only when the simulated time lies in the first half of its hour —
each equal to the unconstrained profile value for that hour multiplied
by the peak rated power, with no value passed through the active
constraint (the result is independent of the constraint list). -/
theorem c6_forecast_24_unconstrained_values (sim : PvSimulator) (now : ℤ) (l : List ℚ)
    (h : sim.get_24h_forecast now = some l) :
    l.length = 24 ∧
    (∀ i (hi : i < 24), ∃ hy : i < l.length, ∃ v,
      lookupTable sim.profile
        (duration_round_hour (now + sim.time_delta) + 3600 * ((i : ℤ) + 1)) = some v ∧
      l.get ⟨i, hy⟩ = v * POWER_IN_W) ∧
    (∀ cs, ({ sim with constraints := cs } : PvSimulator).get_24h_forecast now = some l) := by
  obtain ⟨hlen, hidx⟩ := mapM_option_eq_some _ _ _ h
  refine ⟨by simpa using hlen, ?_, fun cs => h⟩
  intro i hi
  have hi' : i < (List.range 24).length := by simpa using hi
  obtain ⟨hy, hf⟩ := hidx i hi'
  refine ⟨hy, ?_⟩
  rw [List.get_eq_getElem, List.getElem_range] at hf
  cases hlk : lookupTable sim.profile
      (duration_round_hour (now + sim.time_delta) + 3600 * ((i : ℤ) + 1)) with
  | none => rw [hlk] at hf; simp at hf
  | some v =>
    rw [hlk] at hf
    simp only [Option.map_some', Option.some.injEq] at hf
    exact ⟨v, rfl, hf.symm⟩

/-- C6 witness: over the all-zero profile at t = 0, the forecast holds
exactly 24 values, each the profile value for its hour scaled by 2000,
independent of any constraint list. -/
theorem c6_forecast_24_unconstrained_values_witness :
    (simProfileZero.get_24h_forecast 0 = some forecastZeros) ∧
    (forecastZeros.length = 24 ∧
     (∀ i (hi : i < 24), ∃ hy : i < forecastZeros.length, ∃ v,
       lookupTable simProfileZero.profile
         (duration_round_hour (0 + simProfileZero.time_delta) + 3600 * ((i : ℤ) + 1))
         = some v ∧
       forecastZeros.get ⟨i, hy⟩ = v * POWER_IN_W) ∧
     (∀ cs, ({ simProfileZero with constraints := cs } : PvSimulator).get_24h_forecast 0
        = some forecastZeros)) :=
  ⟨by
     rw [PvSimulator.get_24h_forecast, range24]
     simp only [List.mapM_cons, List.mapM_nil]
     simp [simProfileZero, profileZero, forecastZeros, lookupTable, duration_round_hour,
       POWER_IN_W],
   c6_forecast_24_unconstrained_values simProfileZero 0 forecastZeros
     (by
       rw [PvSimulator.get_24h_forecast, range24]
       simp only [List.mapM_cons, List.mapM_nil]
       simp [simProfileZero, profileZero, forecastZeros, lookupTable, duration_round_hour,
         POWER_IN_W])⟩

end S2Pv
